import Mathlib

/-!
Shallow embedding of `pkg/solver/ns1.go` from cert-manager-webhook-ns1.

The solver's two operations `Present` and `CleanUp` are modelled as pure
functions over an explicit solver state (the lazily cached NS1 client) and a
`World` of oracles standing for the external calls the Go code makes:

* `util.FindZoneByFqdn` (a live DNS lookup) — `World.findZoneByFqdn`;
* the Kubernetes secret read in `setNS1Client` — `World.getSecretData`;
* the NS1 REST calls `Records.Create` / `Records.Delete` — the oracles
  `World.createResp` / `World.deleteResp` give the error each call would
  return (`none` = success).

Each function returns, besides the Go function's result, the updated solver
state and the list of provider (NS1) API calls it issued, so that claims
about which records are touched can be stated.

Go errors are modelled by `GoError`: the distinguished sentinel
`ns1Rest.ErrRecordExists` is its own constructor (the Go code compares
errors against it with `!=`), every other error is a message.
-/

deriving instance DecidableEq for Except

namespace NS1Webhook

/-- Field `Name`/`Key` of `cmMetaV1.SecretKeySelector` (JSON keys `name`, `key`).
The Go zero value has both fields empty. -/
structure SecretKeySelector where
  name : String
  key : String
deriving Repr, DecidableEq

/-- The Go zero value of `SecretKeySelector`. -/
def SecretKeySelector.zero : SecretKeySelector := { name := "", key := "" }

/-- `ns1DNSProviderConfig` (ns1.go lines 37-43): the JSON-decoded webhook
config `{apiKeySecretRef, endpoint, ignoreSSL}`. -/
structure Ns1DNSProviderConfig where
  apiKeySecretRef : SecretKeySelector
  endpoint : String
  ignoreSSL : Bool
deriving Repr, DecidableEq

/-- The Go zero value of `ns1DNSProviderConfig`. -/
def Ns1DNSProviderConfig.zero : Ns1DNSProviderConfig :=
  { apiKeySecretRef := SecretKeySelector.zero, endpoint := "", ignoreSSL := false }

/-- A parsed JSON value, the input to the modelled `json.Unmarshal`. -/
inductive JVal where
  | null
  | bool (b : Bool)
  | num (n : Int)
  | str (s : String)
  | arr (elems : List JVal)
  | obj (fields : List (String × JVal))

/-- The raw bytes of `apiExtensionsV1.JSON`: either bytes that are not valid
JSON at all, or a parsed JSON value. -/
inductive RawJSON where
  | invalid (bytes : String)
  | parsed (v : JVal)

/-- The fields of `v1alpha1.ChallengeRequest` that ns1.go reads:
`ResolvedFQDN`, `ResolvedZone`, `Key`, `ResourceNamespace`, `Config`
(a nullable JSON blob). -/
structure ChallengeRequest where
  resolvedFQDN : String
  resolvedZone : String
  key : String
  resourceNamespace : String
  config : Option RawJSON

/-- A Go error as ns1.go observes it: the sentinel `ns1Rest.ErrRecordExists`
(compared by identity at line 81), or any other error by message. -/
inductive GoError where
  | errRecordExists
  | msg (s : String)
deriving Repr, DecidableEq

/-- Modelled `encoding/json` decoding of one field of `SecretKeySelector`
from an object entry: `name` and `key` must be JSON strings (JSON `null`
leaves the field unchanged), unknown keys are ignored. -/
def applySelField (acc : SecretKeySelector) : String × JVal → Except String SecretKeySelector
  | ("name", JVal.str s) => Except.ok { acc with name := s }
  | ("name", JVal.null) => Except.ok acc
  | ("name", _) => Except.error "cannot unmarshal JSON value into Go field name of type string"
  | ("key", JVal.str s) => Except.ok { acc with key := s }
  | ("key", JVal.null) => Except.ok acc
  | ("key", _) => Except.error "cannot unmarshal JSON value into Go field key of type string"
  | (_, _) => Except.ok acc

/-- Modelled `encoding/json` decoding of a `SecretKeySelector`: JSON `null`
leaves the value unchanged, an object is folded field by field, anything
else is a type error. -/
def unmarshalSecretKeySelector (acc : SecretKeySelector) :
    JVal → Except String SecretKeySelector
  | JVal.null => Except.ok acc
  | JVal.obj fs => fs.foldlM applySelField acc
  | _ => Except.error "cannot unmarshal JSON value into Go value of type SecretKeySelector"

/-- Modelled `encoding/json` decoding of one field of `ns1DNSProviderConfig`
from an object entry, by JSON tag: `apiKeySecretRef` (nested struct),
`endpoint` (string), `ignoreSSL` (bool); unknown keys are ignored. -/
def applyCfgField (acc : Ns1DNSProviderConfig) :
    String × JVal → Except String Ns1DNSProviderConfig
  | ("apiKeySecretRef", v) =>
    match unmarshalSecretKeySelector acc.apiKeySecretRef v with
    | Except.error e => Except.error e
    | Except.ok r => Except.ok { acc with apiKeySecretRef := r }
  | ("endpoint", JVal.str s) => Except.ok { acc with endpoint := s }
  | ("endpoint", JVal.null) => Except.ok acc
  | ("endpoint", _) =>
    Except.error "cannot unmarshal JSON value into Go field endpoint of type string"
  | ("ignoreSSL", JVal.bool b) => Except.ok { acc with ignoreSSL := b }
  | ("ignoreSSL", JVal.null) => Except.ok acc
  | ("ignoreSSL", _) =>
    Except.error "cannot unmarshal JSON value into Go field ignoreSSL of type bool"
  | (_, _) => Except.ok acc

/-- Modelled `json.Unmarshal(raw, &cfg)` for `ns1DNSProviderConfig` starting
from the zero value: JSON `null` decodes to the zero value, an object is
folded field by field, anything else is a type error. -/
def unmarshalConfig : JVal → Except String Ns1DNSProviderConfig
  | JVal.null => Except.ok Ns1DNSProviderConfig.zero
  | JVal.obj fs => fs.foldlM applyCfgField Ns1DNSProviderConfig.zero
  | _ => Except.error "cannot unmarshal JSON value into Go value of type ns1DNSProviderConfig"

/-- `json.Unmarshal(cfgJSON.Raw, &cfg)`: bytes that are not JSON fail with
a syntax error, parsed JSON is decoded into the config struct. -/
def jsonUnmarshalConfig : RawJSON → Except String Ns1DNSProviderConfig
  | RawJSON.invalid b => Except.error ("invalid character in " ++ b)
  | RawJSON.parsed v => unmarshalConfig v

/-- `loadConfig` (ns1.go lines 142-153): a nil blob yields the zero-value
config and no error; an unmarshal failure is wrapped as
`error decoding solver config: <err>`. -/
def loadConfig : Option RawJSON → Except GoError Ns1DNSProviderConfig
  | none => Except.ok Ns1DNSProviderConfig.zero
  | some rc =>
    match jsonUnmarshalConfig rc with
    | Except.error m => Except.error (GoError.msg ("error decoding solver config: " ++ m))
    | Except.ok cfg => Except.ok cfg

/-- `tls.Config` as used at line 191: only `InsecureSkipVerify` matters. -/
structure TLSConfig where
  insecureSkipVerify : Bool
deriving Repr, DecidableEq

/-- `http.Transport` as used at lines 190-192. -/
structure Transport where
  tlsClientConfig : TLSConfig
deriving Repr, DecidableEq

/-- `http.Client`: `transport = none` is the default client (standard
certificate verification); a custom transport may be installed. -/
structure HTTPClient where
  transport : Option Transport
deriving Repr, DecidableEq

/-- `&http.Client{}` (line 188): the default client, no custom transport. -/
def defaultHTTPClient : HTTPClient := { transport := none }

/-- The configuration captured by `ns1Rest.NewClient(httpClient,
SetAPIKey(apiKey), SetEndpoint(cfg.Endpoint))` at lines 195-199. -/
structure Ns1Client where
  httpClient : HTTPClient
  apiKey : String
  endpoint : String
deriving Repr, DecidableEq

/-- A TXT answer, `dns.NewTXTAnswer` from the ns1-go model package: its
rdata is the list of text segments. -/
structure Answer where
  rdata : List String
deriving Repr, DecidableEq

/-- `dns.NewTXTAnswer(text)`: a single-segment TXT answer. -/
def NewTXTAnswer (text : String) : Answer := { rdata := [text] }

/-- The fields of the ns1-go `dns.Record` that ns1.go sets. -/
structure DnsRecord where
  zone : String
  domain : String
  typ : String
  ttl : Int
  answers : List Answer
deriving Repr, DecidableEq

/-- `dns.NewRecord(zone, domain, t)` (external library constructor),
modelled as a record with the given zone, domain and type, no answers, and
the TTL the call site immediately overwrites. -/
def NewRecord (zone domain typ : String) : DnsRecord :=
  { zone := zone, domain := domain, typ := typ, ttl := 3600, answers := [] }

/-- `record.AddAnswer(a)`: appends an answer. -/
def AddAnswer (r : DnsRecord) (a : Answer) : DnsRecord :=
  { r with answers := r.answers ++ [a] }

/-- The TXT record Present builds at ns1.go lines 75-77:
`record := dns.NewRecord(zone, domain, "TXT"); record.TTL = 600;
record.AddAnswer(dns.NewTXTAnswer(key))`. -/
def challengeRecord (zone domain key : String) : DnsRecord :=
  let record := NewRecord zone domain "TXT"
  let record := { record with ttl := 600 }
  AddAnswer record (NewTXTAnswer key)

/-- A provider (NS1 REST API) call issued by the solver:
`Records.Create(record)` or `Records.Delete(zone, domain, type)`. -/
inductive ProviderCall where
  | create (r : DnsRecord)
  | delete (zone domain typ : String)
deriving Repr, DecidableEq

/-- The mutable state of `Ns1DNSProviderSolver` that Present/CleanUp touch:
the lazily cached `ns1Client` field (nil ↦ `none`). -/
structure SolverState where
  ns1Client : Option Ns1Client
deriving Repr, DecidableEq

/-- The external environment: results of the DNS zone lookup, the cluster
secret read (a secret's `Data` map as an association list), and the NS1
create/delete responses (`none` = the call succeeds). -/
structure World where
  findZoneByFqdn : String → Except GoError String
  getSecretData : String → String → Except GoError (List (String × String))
  createResp : DnsRecord → Option GoError
  deleteResp : String → String → String → Option GoError

/-- `strings.TrimSuffix(s, pat)`: drops one trailing copy of `pat` if `s`
ends with it (strings modelled as their character sequences). -/
def trimSuffix (s pat : String) : String :=
  if pat.data.isSuffixOf s.data then
    String.mk (s.data.take (s.data.length - pat.data.length))
  else s

/-- `util.UnFqdn(name)` = `strings.TrimSuffix(name, ".")`: strips one
trailing dot if present. -/
def unFqdn (s : String) : String := trimSuffix s "."

/-- Helper for `strings.Index`: the first position at or after the start of
`hay` where `pat` occurs, with `i` the index of `hay`'s head in the
original string. -/
def strIndexAux (pat : List Char) : List Char → Nat → Option Nat
  | [], i => if pat.isPrefixOf ([] : List Char) then some i else none
  | h :: t, i => if pat.isPrefixOf (h :: t) then some i else strIndexAux pat t (i + 1)

/-- `strings.Index(s, pat)`: index of the first occurrence of `pat` in `s`,
`none` standing for Go's `-1`. -/
def strIndex (s pat : String) : Option Nat :=
  strIndexAux pat.data s.data 0

/-- Go's slice `s[:n]` (strings modelled as their character sequences). -/
def strTake (s : String) (n : Nat) : String :=
  String.mk (s.data.take n)

/-- `parseChallenge` (ns1.go lines 205-223): zone from the live lookup,
dot-stripped; domain is the FQDN prefix before the first occurrence of
`"." + ResolvedZone`, else the dot-stripped FQDN. -/
def parseChallenge (w : World) (ch : ChallengeRequest) : Except GoError (String × String) :=
  match w.findZoneByFqdn ch.resolvedFQDN with
  | Except.error e => Except.error e
  | Except.ok z =>
    let zone := unFqdn z
    let domain :=
      match strIndex ch.resolvedFQDN ("." ++ ch.resolvedZone) with
      | some idx => strTake ch.resolvedFQDN idx
      | none => unFqdn ch.resolvedFQDN
    Except.ok (zone, domain)

/-- `setNS1Client` (ns1.go lines 155-202): validate the secret reference,
read the secret, build the HTTP client honouring `IgnoreSSL`, and return
the NS1 client configuration. -/
def setNS1Client (w : World) (ch : ChallengeRequest) (cfg : Ns1DNSProviderConfig) :
    Except GoError Ns1Client :=
  let ref := cfg.apiKeySecretRef
  if ref.name = "" then
    Except.error (GoError.msg
      ("secret for NS1 apiKey not found in '" ++ ch.resourceNamespace ++ "'"))
  else if ref.key = "" then
    Except.error (GoError.msg
      ("no 'key' set in secret '" ++ ch.resourceNamespace ++ "/" ++ ref.name ++ "'"))
  else
    match w.getSecretData ch.resourceNamespace ref.name with
    | Except.error e => Except.error e
    | Except.ok data =>
      match data.lookup ref.key with
      | none => Except.error (GoError.msg
          ("no key '" ++ ref.key ++ "' in secret '" ++ ch.resourceNamespace
            ++ "/" ++ ref.name ++ "'"))
      | some apiKeyBytes =>
        let apiKey := apiKeyBytes
        let httpClient : HTTPClient :=
          if cfg.ignoreSSL then
            { transport := some { tlsClientConfig := { insecureSkipVerify := true } } }
          else
            defaultHTTPClient
        Except.ok { httpClient := httpClient, apiKey := apiKey, endpoint := cfg.endpoint }

/-- The lazy-construction guard shared by Present (lines 67-71) and CleanUp
(lines 106-110): if `c.ns1Client == nil`, call `setNS1Client` and store the
client; otherwise keep the state unchanged. -/
def ensureNS1Client (w : World) (c : SolverState) (ch : ChallengeRequest)
    (cfg : Ns1DNSProviderConfig) : Except GoError SolverState :=
  match c.ns1Client with
  | some _ => Except.ok c
  | none =>
    match setNS1Client w ch cfg with
    | Except.error e => Except.error e
    | Except.ok cl => Except.ok { ns1Client := some cl }

/-- A Present/CleanUp outcome: the Go return value, the solver state after
the call, and the provider API calls issued during the call. -/
structure CallResult where
  result : Except GoError Unit
  state : SolverState
  calls : List ProviderCall
deriving Repr, DecidableEq

/-- `Present` (ns1.go lines 56-87): decode config, derive zone/domain,
lazily build the client, create the TXT record; `ErrRecordExists` from the
create call is swallowed, any other error is returned. -/
def Present (w : World) (c : SolverState) (ch : ChallengeRequest) : CallResult :=
  match loadConfig ch.config with
  | Except.error e => { result := Except.error e, state := c, calls := [] }
  | Except.ok cfg =>
    match parseChallenge w ch with
    | Except.error e => { result := Except.error e, state := c, calls := [] }
    | Except.ok (zone, domain) =>
      match ensureNS1Client w c ch cfg with
      | Except.error e => { result := Except.error e, state := c, calls := [] }
      | Except.ok c1 =>
        let record := challengeRecord zone domain ch.key
        match w.createResp record with
        | some e =>
          if e ≠ GoError.errRecordExists then
            { result := Except.error e, state := c1, calls := [ProviderCall.create record] }
          else
            { result := Except.ok (), state := c1, calls := [ProviderCall.create record] }
        | none =>
          { result := Except.ok (), state := c1, calls := [ProviderCall.create record] }

/-- `CleanUp` (ns1.go lines 95-120): same pipeline as Present, then delete
`(zone, domain + "." + zone, "TXT")`; any delete error is returned. -/
def CleanUp (w : World) (c : SolverState) (ch : ChallengeRequest) : CallResult :=
  match loadConfig ch.config with
  | Except.error e => { result := Except.error e, state := c, calls := [] }
  | Except.ok cfg =>
    match parseChallenge w ch with
    | Except.error e => { result := Except.error e, state := c, calls := [] }
    | Except.ok (zone, domain) =>
      match ensureNS1Client w c ch cfg with
      | Except.error e => { result := Except.error e, state := c, calls := [] }
      | Except.ok c1 =>
        match w.deleteResp zone (domain ++ "." ++ zone) "TXT" with
        | some e =>
          { result := Except.error e, state := c1
            calls := [ProviderCall.delete zone (domain ++ "." ++ zone) "TXT"] }
        | none =>
          { result := Except.ok (), state := c1
            calls := [ProviderCall.delete zone (domain ++ "." ++ zone) "TXT"] }

/-! Concrete fixtures used by the witness theorems. -/

/-- A concrete environment: the zone lookup resolves every FQDN to
`example.com.`, the secret `default/ns1-creds` holds `apiKey ↦ k123`, and
both provider calls succeed. -/
def wExample : World :=
  { findZoneByFqdn := fun _ => Except.ok "example.com."
  , getSecretData := fun ns n =>
      if ns == "default" && n == "ns1-creds" then Except.ok [("apiKey", "k123")]
      else Except.error (GoError.msg "secret not found")
  , createResp := fun _ => none
  , deleteResp := fun _ _ _ => none }

/-- A concrete challenge for `_acme-challenge.example.com.` in zone
`example.com`, with a config blob naming the secret `ns1-creds`/`apiKey`. -/
def chExample : ChallengeRequest :=
  { resolvedFQDN := "_acme-challenge.example.com."
  , resolvedZone := "example.com"
  , key := "tok"
  , resourceNamespace := "default"
  , config := some (RawJSON.parsed (JVal.obj
      [("apiKeySecretRef", JVal.obj
          [("name", JVal.str "ns1-creds"), ("key", JVal.str "apiKey")])])) }

/-- The decoded form of `chExample`'s config blob. -/
def cfgExample : Ns1DNSProviderConfig :=
  { apiKeySecretRef := { name := "ns1-creds", key := "apiKey" }
  , endpoint := "", ignoreSSL := false }

/-- The solver state with no cached client (a fresh solver). -/
def stateNil : SolverState := { ns1Client := none }

/-- The NS1 client `setNS1Client` builds from `wExample`/`chExample`. -/
def clientExample : Ns1Client :=
  { httpClient := defaultHTTPClient, apiKey := "k123", endpoint := "" }

/-- The solver state holding `clientExample`. -/
def stateCached : SolverState := { ns1Client := some clientExample }

/-- `pat` occurs in `s` at character position `i`: an implementation
independent statement of substring occurrence, used to characterize
`strIndex`. -/
def occursAt (s pat : String) (i : Nat) : Prop :=
  pat.data.isPrefixOf (s.data.drop i) = true

/-- `chExample` with a config blob decoding to the zero-value config (an
empty secret reference). -/
def chEmptyRef : ChallengeRequest :=
  { chExample with config := some (RawJSON.parsed (JVal.obj [])) }

/-- `chExample` with a config blob whose bytes are not valid JSON. -/
def chBadConfig : ChallengeRequest :=
  { chExample with config := some (RawJSON.invalid "not-json") }

/-- `wExample` but the provider already holds the record: every create call
returns `ErrRecordExists`. -/
def wAlreadyHasRecord : World :=
  { wExample with createResp := fun _ => some GoError.errRecordExists }

/-- `wExample` but every create call fails with a non-sentinel error. -/
def wCreateFails : World :=
  { wExample with createResp := fun _ => some (GoError.msg "rate limit exceeded") }

/-- `wExample` but every delete call fails (e.g. the record is gone). -/
def wDeleteFails : World :=
  { wExample with deleteResp := fun _ _ _ => some (GoError.msg "record not found") }

/-- `wExample` but the secret store refuses every read. -/
def wOtherSecrets : World :=
  { wExample with getSecretData := fun _ _ => Except.error (GoError.msg "forbidden") }

/-- `cfgExample` with `ignoreSSL` set. -/
def cfgIgnoreSSL : Ns1DNSProviderConfig :=
  { cfgExample with ignoreSSL := true }

/-- The NS1 client `setNS1Client` builds from `cfgIgnoreSSL`: its transport
skips TLS verification. -/
def clientInsecure : Ns1Client :=
  { httpClient := { transport := some { tlsClientConfig := { insecureSkipVerify := true } } }
  , apiKey := "k123", endpoint := "" }

/-! Helper lemmas shared by the claim theorems. -/

/-- `parseChallenge` reads the world only through the zone lookup. -/
theorem parseChallenge_congr (w1 w2 : World) (ch : ChallengeRequest)
    (h : w1.findZoneByFqdn = w2.findZoneByFqdn) :
    parseChallenge w1 ch = parseChallenge w2 ch := by
  unfold parseChallenge
  rw [h]

/-- With a cached client the lazy-construction guard is a no-op. -/
theorem ensureNS1Client_cached (w : World) (cl : Ns1Client) (c : SolverState)
    (ch : ChallengeRequest) (cfg : Ns1DNSProviderConfig) (h : c.ns1Client = some cl) :
    ensureNS1Client w c ch cfg = Except.ok c := by
  unfold ensureNS1Client
  rw [h]

/-- After a successful lazy-construction guard the state holds a client. -/
theorem ensureNS1Client_some (w : World) (c : SolverState) (ch : ChallengeRequest)
    (cfg : Ns1DNSProviderConfig) (c1 : SolverState)
    (h : ensureNS1Client w c ch cfg = Except.ok c1) :
    ∃ cl, c1.ns1Client = some cl := by
  unfold ensureNS1Client at h
  cases hc : c.ns1Client with
  | some cl =>
    rw [hc] at h
    injection h with h1
    exact ⟨cl, h1 ▸ hc⟩
  | none =>
    rw [hc] at h
    cases hs : setNS1Client w ch cfg with
    | error e => rw [hs] at h; exact Except.noConfusion h
    | ok cl =>
      rw [hs] at h
      injection h with h1
      exact ⟨cl, by rw [← h1]⟩

/-- An incomplete secret reference makes `setNS1Client` fail with a
validation error, before the secret is read. -/
theorem setNS1Client_empty_ref (w : World) (ch : ChallengeRequest)
    (cfg : Ns1DNSProviderConfig)
    (h : cfg.apiKeySecretRef.name = "" ∨ cfg.apiKeySecretRef.key = "") :
    ∃ m, setNS1Client w ch cfg = Except.error (GoError.msg m) := by
  by_cases hn : cfg.apiKeySecretRef.name = ""
  · exact ⟨"secret for NS1 apiKey not found in '" ++ ch.resourceNamespace ++ "'",
      by simp [setNS1Client, hn]⟩
  · have hk : cfg.apiKeySecretRef.key = "" := h.resolve_left hn
    exact ⟨"no 'key' set in secret '" ++ ch.resourceNamespace ++ "/"
        ++ cfg.apiKeySecretRef.name ++ "'",
      by simp [setNS1Client, hn, hk]⟩

/-- If the search helper reports no index, the pattern occurs nowhere. -/
theorem strIndexAux_none_no_occurrence (pat : List Char) :
    ∀ (hay : List Char) (i : Nat), strIndexAux pat hay i = none →
      ∀ k, pat.isPrefixOf (hay.drop k) = false := by
  intro hay
  induction hay with
  | nil =>
    intro i h k
    rw [List.drop_nil]
    cases hp : pat.isPrefixOf ([] : List Char)
    · rfl
    · simp [strIndexAux, hp] at h
  | cons head tail ih =>
    intro i h k
    cases hp : pat.isPrefixOf (head :: tail)
    · have ht : strIndexAux pat tail (i + 1) = none := by
        simpa [strIndexAux, hp] using h
      cases k with
      | zero => simpa [List.drop_zero] using hp
      | succ m => rw [List.drop_succ_cons]; exact ih (i + 1) ht m
    · simp [strIndexAux, hp] at h

/-- If the search helper reports index `j`, the pattern occurs there and
nowhere earlier. -/
theorem strIndexAux_some_least (pat : List Char) :
    ∀ (hay : List Char) (i j : Nat), strIndexAux pat hay i = some j →
      ∃ k, j = i + k ∧ pat.isPrefixOf (hay.drop k) = true ∧
        ∀ m, m < k → pat.isPrefixOf (hay.drop m) = false := by
  intro hay
  induction hay with
  | nil =>
    intro i j h
    cases hp : pat.isPrefixOf ([] : List Char)
    · simp [strIndexAux, hp] at h
    · have hj : i = j := by simpa [strIndexAux, hp] using h
      refine ⟨0, by omega, by simpa [List.drop_nil] using hp, ?_⟩
      intro m hm
      exact absurd hm (Nat.not_lt_zero m)
  | cons head tail ih =>
    intro i j h
    cases hp : pat.isPrefixOf (head :: tail)
    · have ht : strIndexAux pat tail (i + 1) = some j := by
        simpa [strIndexAux, hp] using h
      obtain ⟨k, hk, hpre, hmin⟩ := ih (i + 1) j ht
      refine ⟨k + 1, by omega, ?_, ?_⟩
      · rw [List.drop_succ_cons]; exact hpre
      · intro m hm
        cases m with
        | zero => simpa [List.drop_zero] using hp
        | succ m' => rw [List.drop_succ_cons]; exact hmin m' (by omega)
    · have hj : i = j := by simpa [strIndexAux, hp] using h
      refine ⟨0, by omega, by simpa [List.drop_zero] using hp, ?_⟩
      intro m hm
      exact absurd hm (Nat.not_lt_zero m)

/-! Claim theorems. -/

/-- C2: for a challenge whose config decodes, whose zone/domain derivation
succeeds and whose client guard succeeds, CleanUp issues exactly the one
provider delete call `(zone, domain ++ "." ++ zone, "TXT")`; in particular
every delete in its trace is keyed by exactly that pair, so no record under
a different key is removed. -/
theorem cleanup_deletes_exactly_derived_record
    (w : World) (c : SolverState) (ch : ChallengeRequest)
    (cfg : Ns1DNSProviderConfig) (zone domain : String) (c1 : SolverState)
    (hcfg : loadConfig ch.config = Except.ok cfg)
    (hparse : parseChallenge w ch = Except.ok (zone, domain))
    (hcl : ensureNS1Client w c ch cfg = Except.ok c1) :
    (CleanUp w c ch).calls = [ProviderCall.delete zone (domain ++ "." ++ zone) "TXT"] ∧
    ∀ z d t, ProviderCall.delete z d t ∈ (CleanUp w c ch).calls →
      z = zone ∧ d = domain ++ "." ++ zone ∧ t = "TXT" := by
  have hcalls : (CleanUp w c ch).calls
      = [ProviderCall.delete zone (domain ++ "." ++ zone) "TXT"] := by
    simp only [CleanUp, hcfg, hparse, hcl]
    cases w.deleteResp zone (domain ++ "." ++ zone) "TXT" <;> rfl
  refine ⟨hcalls, ?_⟩
  intro z d t hmem
  rw [hcalls] at hmem
  simp only [List.mem_singleton] at hmem
  injection hmem with h1 h2 h3
  exact ⟨h1, h2, h3⟩

/-- C5: CleanUp returns any error from the provider delete call unchanged,
whatever that error is (a "record not found" condition included); no
provider error is suppressed in CleanUp. -/
theorem cleanup_surfaces_every_delete_error
    (w : World) (c : SolverState) (ch : ChallengeRequest)
    (cfg : Ns1DNSProviderConfig) (zone domain : String) (c1 : SolverState)
    (hcfg : loadConfig ch.config = Except.ok cfg)
    (hparse : parseChallenge w ch = Except.ok (zone, domain))
    (hcl : ensureNS1Client w c ch cfg = Except.ok c1) :
    ∀ e : GoError, w.deleteResp zone (domain ++ "." ++ zone) "TXT" = some e →
      (CleanUp w c ch).result = Except.error e := by
  intro e hdel
  simp [CleanUp, hcfg, hparse, hcl, hdel]

/-- C7: the delete request CleanUp issues does not depend on the
challenge's Key field: two challenges identical except in Key produce the
identical CleanUp outcome, delete call included. -/
theorem cleanup_independent_of_challenge_key
    (w : World) (c : SolverState) (ch : ChallengeRequest) (k2 : String) :
    (CleanUp w c { ch with key := k2 }).calls = (CleanUp w c ch).calls ∧
    CleanUp w c { ch with key := k2 } = CleanUp w c ch := by
  constructor <;> rfl

/-- C8: when the create call succeeds, Present succeeds and has issued
exactly one create call, for a TXT record at (zone, domain) with TTL 600
and the single answer equal to the challenge key. -/
theorem present_creates_single_txt_record
    (w : World) (c : SolverState) (ch : ChallengeRequest)
    (cfg : Ns1DNSProviderConfig) (zone domain : String) (c1 : SolverState)
    (hcfg : loadConfig ch.config = Except.ok cfg)
    (hparse : parseChallenge w ch = Except.ok (zone, domain))
    (hcl : ensureNS1Client w c ch cfg = Except.ok c1)
    (hok : w.createResp (challengeRecord zone domain ch.key) = none) :
    (Present w c ch).result = Except.ok () ∧
    (Present w c ch).calls = [ProviderCall.create (challengeRecord zone domain ch.key)] ∧
    (challengeRecord zone domain ch.key).ttl = 600 ∧
    (challengeRecord zone domain ch.key).typ = "TXT" ∧
    (challengeRecord zone domain ch.key).zone = zone ∧
    (challengeRecord zone domain ch.key).domain = domain ∧
    (challengeRecord zone domain ch.key).answers = [NewTXTAnswer ch.key] := by
  refine ⟨?_, ?_, rfl, rfl, rfl, rfl, rfl⟩ <;>
    simp [Present, hcfg, hparse, hcl, hok]

/-- C1: if the provider create call fails with the record-already-exists
sentinel, Present succeeds; any other create error is returned unchanged;
and after a successful Present, a second Present of the identical challenge
— against a provider that now reports the record as existing, or that still
accepts the create — also succeeds. -/
theorem present_swallows_record_exists_and_is_idempotent
    (w : World) (c : SolverState) (ch : ChallengeRequest)
    (cfg : Ns1DNSProviderConfig) (zone domain : String) (c1 : SolverState)
    (hcfg : loadConfig ch.config = Except.ok cfg)
    (hparse : parseChallenge w ch = Except.ok (zone, domain))
    (hcl : ensureNS1Client w c ch cfg = Except.ok c1) :
    (w.createResp (challengeRecord zone domain ch.key) = some GoError.errRecordExists →
      (Present w c ch).result = Except.ok ()) ∧
    (∀ e, e ≠ GoError.errRecordExists →
      w.createResp (challengeRecord zone domain ch.key) = some e →
      (Present w c ch).result = Except.error e) ∧
    (w.createResp (challengeRecord zone domain ch.key) = none →
      (Present w c ch).result = Except.ok () ∧
      ∀ w2 : World, w2.findZoneByFqdn = w.findZoneByFqdn →
        (w2.createResp (challengeRecord zone domain ch.key) = some GoError.errRecordExists ∨
          w2.createResp (challengeRecord zone domain ch.key) = none) →
        (Present w2 (Present w c ch).state ch).result = Except.ok ()) := by
  obtain ⟨cl, hc1⟩ := ensureNS1Client_some w c ch cfg c1 hcl
  refine ⟨?_, ?_, ?_⟩
  · intro hcr
    simp [Present, hcfg, hparse, hcl, hcr]
  · intro e he hcr
    simp [Present, hcfg, hparse, hcl, hcr, he]
  · intro hcr
    have hstate : (Present w c ch).state = c1 := by
      simp [Present, hcfg, hparse, hcl, hcr]
    refine ⟨by simp [Present, hcfg, hparse, hcl, hcr], ?_⟩
    intro w2 hfz hcr2
    have hparse2 : parseChallenge w2 ch = Except.ok (zone, domain) := by
      rw [parseChallenge_congr w2 w ch hfz]; exact hparse
    have hcl2 : ensureNS1Client w2 c1 ch cfg = Except.ok c1 :=
      ensureNS1Client_cached w2 cl c1 ch cfg hc1
    rw [hstate]
    rcases hcr2 with h2 | h2 <;> simp [Present, hcfg, hparse2, hcl2, h2]

/-- C3: when the zone lookup succeeds, the derived domain is the FQDN
prefix before the first (leftmost) occurrence of `"." ++ ResolvedZone` when
that string occurs in the FQDN, and the dot-stripped FQDN when it does
not. -/
theorem parse_challenge_domain_derivation
    (w : World) (ch : ChallengeRequest) (z : String)
    (hz : w.findZoneByFqdn ch.resolvedFQDN = Except.ok z) :
    ∃ domain, parseChallenge w ch = Except.ok (unFqdn z, domain) ∧
      ((∃ i, occursAt ch.resolvedFQDN ("." ++ ch.resolvedZone) i) →
        ∃ i, occursAt ch.resolvedFQDN ("." ++ ch.resolvedZone) i ∧
          (∀ j, occursAt ch.resolvedFQDN ("." ++ ch.resolvedZone) j → i ≤ j) ∧
          domain = strTake ch.resolvedFQDN i) ∧
      ((∀ i, ¬ occursAt ch.resolvedFQDN ("." ++ ch.resolvedZone) i) →
        domain = unFqdn ch.resolvedFQDN) := by
  cases hidx : strIndex ch.resolvedFQDN ("." ++ ch.resolvedZone) with
  | none =>
    refine ⟨unFqdn ch.resolvedFQDN, by simp [parseChallenge, hz, hidx], ?_, fun _ => rfl⟩
    rintro ⟨i, hi⟩
    have hno : ("." ++ ch.resolvedZone).data.isPrefixOf
        (ch.resolvedFQDN.data.drop i) = false :=
      strIndexAux_none_no_occurrence _ _ _ hidx i
    rw [occursAt, hno] at hi
    exact Bool.noConfusion hi
  | some j =>
    have hidx' : strIndexAux ("." ++ ch.resolvedZone).data ch.resolvedFQDN.data 0
        = some j := hidx
    obtain ⟨k, hk, hpre, hmin⟩ := strIndexAux_some_least _ _ 0 j hidx'
    have hkj : k = j := by omega
    subst hkj
    have hocc : occursAt ch.resolvedFQDN ("." ++ ch.resolvedZone) k := hpre
    refine ⟨strTake ch.resolvedFQDN k, by simp [parseChallenge, hz, hidx], ?_, ?_⟩
    · intro _
      refine ⟨k, hocc, ?_, rfl⟩
      intro j' hj'
      by_contra hlt
      push_neg at hlt
      have hfalse := hmin j' hlt
      rw [occursAt, hfalse] at hj'
      exact Bool.noConfusion hj'
    · intro hno
      exact absurd hocc (hno k)

/-- C9: a successfully constructed provider client has an HTTP transport
with TLS verification disabled exactly when `ignoreSSL` is true; with
`ignoreSSL` false (the zero value, so also when absent) it is the default
HTTP client, which verifies certificates. -/
theorem client_transport_honours_ignore_ssl
    (w : World) (ch : ChallengeRequest) (cfg : Ns1DNSProviderConfig) (cl : Ns1Client)
    (h : setNS1Client w ch cfg = Except.ok cl) :
    (cfg.ignoreSSL = true →
      cl.httpClient.transport =
        some { tlsClientConfig := { insecureSkipVerify := true } }) ∧
    (cfg.ignoreSSL = false → cl.httpClient = defaultHTTPClient) := by
  constructor <;> intro hssl <;>
    · simp [setNS1Client, hssl] at h
      repeat' split at h
      all_goals first
        | exact Except.noConfusion h
        | (injection h with h1; rw [← h1])

/-- C4 counterexample: when the solver already caches a provider client,
Present with a decoded config whose secret reference is empty does NOT
return an error — it succeeds and issues a provider call. -/
theorem present_empty_ref_not_always_error :
    loadConfig chEmptyRef.config = Except.ok Ns1DNSProviderConfig.zero ∧
    Ns1DNSProviderConfig.zero.apiKeySecretRef.name = "" ∧
    (Present wExample stateCached chEmptyRef).result = Except.ok () ∧
    (Present wExample stateCached chEmptyRef).calls ≠ [] := by
  exact ⟨rfl, rfl, by decide, by decide⟩

/-- C4 (amended): for a Present or CleanUp call whose decoded config has an
empty apiKeySecretRef name or key, and whose solver has no cached provider
client yet, the call returns an error and no provider API call is
attempted. -/
theorem empty_secret_ref_fails_before_provider_calls
    (w : World) (ch : ChallengeRequest) (cfg : Ns1DNSProviderConfig) (c : SolverState)
    (hcfg : loadConfig ch.config = Except.ok cfg)
    (hempty : cfg.apiKeySecretRef.name = "" ∨ cfg.apiKeySecretRef.key = "")
    (hnil : c.ns1Client = none) :
    ((∃ e, (Present w c ch).result = Except.error e) ∧ (Present w c ch).calls = []) ∧
    ((∃ e, (CleanUp w c ch).result = Except.error e) ∧ (CleanUp w c ch).calls = []) := by
  obtain ⟨m, hset⟩ := setNS1Client_empty_ref w ch cfg hempty
  have hens : ensureNS1Client w c ch cfg = Except.error (GoError.msg m) := by
    unfold ensureNS1Client
    rw [hnil, hset]
  constructor
  · cases hp : parseChallenge w ch with
    | error e =>
      exact ⟨⟨e, by simp [Present, hcfg, hp]⟩, by simp [Present, hcfg, hp]⟩
    | ok zd =>
      obtain ⟨zone, domain⟩ := zd
      exact ⟨⟨GoError.msg m, by simp [Present, hcfg, hp, hens]⟩,
        by simp [Present, hcfg, hp, hens]⟩
  · cases hp : parseChallenge w ch with
    | error e =>
      exact ⟨⟨e, by simp [CleanUp, hcfg, hp]⟩, by simp [CleanUp, hcfg, hp]⟩
    | ok zd =>
      obtain ⟨zone, domain⟩ := zd
      exact ⟨⟨GoError.msg m, by simp [CleanUp, hcfg, hp, hens]⟩,
        by simp [CleanUp, hcfg, hp, hens]⟩

/-- C6: with a cached provider client, Present and CleanUp ignore the
secret store and the decoded config entirely — two calls against worlds
that agree on the zone lookup and the provider responses (but may disagree
on secrets), with challenges that agree on FQDN, zone and key (but may
carry different decodable configs and namespaces), behave identically, and
the cached client is left in place. -/
theorem cached_client_short_circuits_config
    (w1 w2 : World) (cl : Ns1Client) (ch1 ch2 : ChallengeRequest)
    (cfg1 cfg2 : Ns1DNSProviderConfig)
    (hfz : w1.findZoneByFqdn = w2.findZoneByFqdn)
    (hcr : w1.createResp = w2.createResp)
    (hdr : w1.deleteResp = w2.deleteResp)
    (hfq : ch1.resolvedFQDN = ch2.resolvedFQDN)
    (hrz : ch1.resolvedZone = ch2.resolvedZone)
    (hk : ch1.key = ch2.key)
    (h1 : loadConfig ch1.config = Except.ok cfg1)
    (h2 : loadConfig ch2.config = Except.ok cfg2) :
    Present w1 { ns1Client := some cl } ch1 = Present w2 { ns1Client := some cl } ch2 ∧
    CleanUp w1 { ns1Client := some cl } ch1 = CleanUp w2 { ns1Client := some cl } ch2 ∧
    (Present w1 { ns1Client := some cl } ch1).state = { ns1Client := some cl } ∧
    (CleanUp w1 { ns1Client := some cl } ch1).state = { ns1Client := some cl } := by
  have hparse : parseChallenge w1 ch1 = parseChallenge w2 ch2 := by
    unfold parseChallenge
    rw [hfz, hfq, hrz]
  have hens1 : ∀ cfg, ensureNS1Client w1 { ns1Client := some cl } ch1 cfg
      = Except.ok { ns1Client := some cl } :=
    fun cfg => ensureNS1Client_cached w1 cl _ ch1 cfg rfl
  have hens2 : ∀ cfg, ensureNS1Client w2 { ns1Client := some cl } ch2 cfg
      = Except.ok { ns1Client := some cl } :=
    fun cfg => ensureNS1Client_cached w2 cl _ ch2 cfg rfl
  refine ⟨?_, ?_, ?_, ?_⟩
  · cases hp : parseChallenge w2 ch2 with
    | error e => simp [Present, h1, h2, hparse, hp]
    | ok zd =>
      obtain ⟨zone, domain⟩ := zd
      simp [Present, h1, h2, hparse, hp, hens1, hens2, hk, hcr]
  · cases hp : parseChallenge w2 ch2 with
    | error e => simp [CleanUp, h1, h2, hparse, hp]
    | ok zd =>
      obtain ⟨zone, domain⟩ := zd
      simp [CleanUp, h1, h2, hparse, hp, hens1, hens2, hdr]
  · cases hp : parseChallenge w1 ch1 with
    | error e => simp [Present, h1, hp]
    | ok zd =>
      obtain ⟨zone, domain⟩ := zd
      simp only [Present, h1, hp, hens1]
      repeat' split
      all_goals rfl
  · cases hp : parseChallenge w1 ch1 with
    | error e => simp [CleanUp, h1, hp]
    | ok zd =>
      obtain ⟨zone, domain⟩ := zd
      simp only [CleanUp, h1, hp, hens1]
      repeat' split
      all_goals rfl

/-- C10: a nil config blob decodes to the zero-value config without error;
bytes that do not decode yield a wrapped decoding error; and a decoding
error makes Present and CleanUp return it at once, with the state untouched
and no provider call issued. -/
theorem load_config_base_case_and_error_propagation :
    loadConfig none = Except.ok Ns1DNSProviderConfig.zero ∧
    (∀ b, ∃ m, loadConfig (some (RawJSON.invalid b)) =
        Except.error (GoError.msg ("error decoding solver config: " ++ m))) ∧
    (∀ (w : World) (c : SolverState) (ch : ChallengeRequest) (e : GoError),
      loadConfig ch.config = Except.error e →
        Present w c ch = { result := Except.error e, state := c, calls := [] } ∧
        CleanUp w c ch = { result := Except.error e, state := c, calls := [] }) := by
  refine ⟨rfl, ?_, ?_⟩
  · intro b
    exact ⟨"invalid character in " ++ b, rfl⟩
  · intro w c ch e hcfg
    constructor
    · simp [Present, hcfg]
    · simp [CleanUp, hcfg]

/-! Witnesses: each claim theorem with a hypothesis, applied at a concrete
input. -/

/-- C1 witness: at the example challenge, the first Present succeeds, and a
repeat against a provider that now reports the record as existing also
succeeds. -/
theorem present_swallows_record_exists_and_is_idempotent_witness :
    (Present wExample stateNil chExample).result = Except.ok () ∧
    (Present wAlreadyHasRecord (Present wExample stateNil chExample).state
      chExample).result = Except.ok () := by
  have h := present_swallows_record_exists_and_is_idempotent wExample stateNil chExample
    cfgExample "example.com" "_acme-challenge" stateCached
    (by decide) (by decide) (by decide)
  obtain ⟨hok, hsecond⟩ := h.2.2 (by decide)
  exact ⟨hok, hsecond wAlreadyHasRecord rfl (Or.inl (by decide))⟩

/-- C2 witness: at the example challenge, CleanUp's trace is the single
delete of `(example.com, _acme-challenge.example.com, TXT)`. -/
theorem cleanup_deletes_exactly_derived_record_witness :
    (CleanUp wExample stateNil chExample).calls
      = [ProviderCall.delete "example.com" "_acme-challenge.example.com" "TXT"] := by
  have h := cleanup_deletes_exactly_derived_record wExample stateNil chExample
    cfgExample "example.com" "_acme-challenge" stateCached
    (by decide) (by decide) (by decide)
  exact h.1

/-- C3 witness: the domain characterization at the example challenge
(`_acme-challenge.example.com.` in zone `example.com`). -/
theorem parse_challenge_domain_derivation_witness :
    ∃ domain, parseChallenge wExample chExample = Except.ok (unFqdn "example.com.", domain) ∧
      ((∃ i, occursAt chExample.resolvedFQDN ("." ++ chExample.resolvedZone) i) →
        ∃ i, occursAt chExample.resolvedFQDN ("." ++ chExample.resolvedZone) i ∧
          (∀ j, occursAt chExample.resolvedFQDN ("." ++ chExample.resolvedZone) j → i ≤ j) ∧
          domain = strTake chExample.resolvedFQDN i) ∧
      ((∀ i, ¬ occursAt chExample.resolvedFQDN ("." ++ chExample.resolvedZone) i) →
        domain = unFqdn chExample.resolvedFQDN) :=
  parse_challenge_domain_derivation wExample chExample "example.com." (by decide)

/-- C4 witness (amended claim): with no cached client, the empty secret
reference makes both operations fail with no provider call. -/
theorem empty_secret_ref_fails_before_provider_calls_witness :
    ((∃ e, (Present wExample stateNil chEmptyRef).result = Except.error e) ∧
      (Present wExample stateNil chEmptyRef).calls = []) ∧
    ((∃ e, (CleanUp wExample stateNil chEmptyRef).result = Except.error e) ∧
      (CleanUp wExample stateNil chEmptyRef).calls = []) :=
  empty_secret_ref_fails_before_provider_calls wExample chEmptyRef
    Ns1DNSProviderConfig.zero stateNil (by decide) (Or.inl rfl) rfl

/-- C5 witness: a failing delete (record not found) is returned unchanged
by CleanUp at the example challenge. -/
theorem cleanup_surfaces_every_delete_error_witness :
    (CleanUp wDeleteFails stateNil chExample).result
      = Except.error (GoError.msg "record not found") := by
  have h := cleanup_surfaces_every_delete_error wDeleteFails stateNil chExample
    cfgExample "example.com" "_acme-challenge" stateCached
    (by decide) (by decide) (by decide)
  exact h (GoError.msg "record not found") rfl

/-- C6 witness: with the cached example client, Present and CleanUp behave
identically against a world with an unreadable secret store and a config
with an empty secret reference, and the cached client stays in place. -/
theorem cached_client_short_circuits_config_witness :
    Present wExample stateCached chExample = Present wOtherSecrets stateCached chEmptyRef ∧
    CleanUp wExample stateCached chExample = CleanUp wOtherSecrets stateCached chEmptyRef ∧
    (Present wExample stateCached chExample).state = stateCached ∧
    (CleanUp wExample stateCached chExample).state = stateCached :=
  cached_client_short_circuits_config wExample wOtherSecrets clientExample
    chExample chEmptyRef cfgExample Ns1DNSProviderConfig.zero
    rfl rfl rfl rfl rfl rfl (by decide) (by decide)

/-- C8 witness: at the example challenge, Present succeeds and issues the
single create call for the TTL-600 TXT record answering `tok`. -/
theorem present_creates_single_txt_record_witness :
    (Present wExample stateNil chExample).result = Except.ok () ∧
    (Present wExample stateNil chExample).calls
      = [ProviderCall.create (challengeRecord "example.com" "_acme-challenge" "tok")] ∧
    (challengeRecord "example.com" "_acme-challenge" "tok").ttl = 600 ∧
    (challengeRecord "example.com" "_acme-challenge" "tok").typ = "TXT" ∧
    (challengeRecord "example.com" "_acme-challenge" "tok").zone = "example.com" ∧
    (challengeRecord "example.com" "_acme-challenge" "tok").domain = "_acme-challenge" ∧
    (challengeRecord "example.com" "_acme-challenge" "tok").answers = [NewTXTAnswer "tok"] :=
  present_creates_single_txt_record wExample stateNil chExample cfgExample
    "example.com" "_acme-challenge" stateCached (by decide) (by decide) (by decide) rfl

/-- C9 witness: the concrete clients built with `ignoreSSL` false and true
have, respectively, the default HTTP client and an
InsecureSkipVerify transport. -/
theorem client_transport_honours_ignore_ssl_witness :
    clientExample.httpClient = defaultHTTPClient ∧
    clientInsecure.httpClient.transport
      = some { tlsClientConfig := { insecureSkipVerify := true } } := by
  constructor
  · exact (client_transport_honours_ignore_ssl wExample chExample cfgExample clientExample
      (by decide)).2 rfl
  · exact (client_transport_honours_ignore_ssl wExample chExample cfgIgnoreSSL clientInsecure
      (by decide)).1 rfl

/-- C10 witness: a non-JSON config blob makes Present return the wrapped
decoding error at once, with no provider call and the state untouched. -/
theorem load_config_base_case_and_error_propagation_witness :
    Present wExample stateNil chBadConfig
      = { result := Except.error
            (GoError.msg "error decoding solver config: invalid character in not-json")
        , state := stateNil, calls := [] } := by
  have h := load_config_base_case_and_error_propagation.2.2 wExample stateNil chBadConfig
    (GoError.msg "error decoding solver config: invalid character in not-json") (by decide)
  exact h.1

end NS1Webhook
